import Mathlib

/-! Shallow embedding of the Market-Data Caching & Screening Engine of the
my-stockai-app repository.

* `AppPy` embeds the TTL cache `get_cached_or_fetch` of `src/app.py`.
* `BackendMain` embeds the scorer and screener of `src/backend/main.py`.
* `MainPy` embeds the scorer and screener of `src/main.py`.
* `BackendApi` embeds the RSI computation and the AI score of
  `src/backend_api.py`.

Python floats and ints are embedded as rationals `ℚ`; dictionaries with
optional keys become structures with `Option` fields, and `d.get(k, v)`
becomes `Option.getD`. -/

/-- Bar: one row of the yfinance OHLCV DataFrame (spec section 3); the
date index is positional. -/
structure Bar where
  date : ℕ
  openPrice : ℚ
  high : ℚ
  low : ℚ
  close : ℚ
  volume : ℚ
  deriving Inhabited, DecidableEq

/-- Indicators: the dictionary produced by `calculate_technical_indicators`
(`src/backend/main.py` lines 178-223).  A key absent from the dict (window
requirement unmet, or a NaN cleaned out at line 217) is `none`. -/
structure Indicators where
  RSI : Option ℚ := none
  MACD : Option ℚ := none
  MACD_Signal : Option ℚ := none
  MACD_Histogram : Option ℚ := none
  BB_Upper : Option ℚ := none
  BB_Lower : Option ℚ := none
  BB_Middle : Option ℚ := none
  SMA_20 : Option ℚ := none
  SMA_50 : Option ℚ := none
  EMA_12 : Option ℚ := none
  EMA_26 : Option ℚ := none
  ADX : Option ℚ := none
  Volume_SMA : Option ℚ := none
  deriving Inhabited, DecidableEq

/-- ScreenCriteria: the `criteria` dict of a screener request.  `none`
models an absent key.  The boolean filters model both
`criteria.get('price_above_sma20', False)` (`src/backend/main.py` line 391)
and `'price_above_sma20' in criteria and criteria['price_above_sma20']`
(`src/main.py` line 266), which agree: absent behaves as `False`. -/
structure Criteria where
  rsi_min : Option ℚ := none
  rsi_max : Option ℚ := none
  price_above_sma20 : Bool := false
  min_volume : Option ℚ := none
  macd_bullish : Bool := false
  deriving Inhabited, DecidableEq

/-- Stable insertion of `x` into a list already sorted by `score`
descending: `x` goes in front of the first element whose score does not
exceed `score x`.  Folding this over a list from the right models Python's
stable `list.sort(key=..., reverse=True)`: equal-score elements keep their
original relative order. -/
def insertByScore {α : Type} (score : α → ℚ) (x : α) : List α → List α
  | [] => [x]
  | y :: ys => if score y ≤ score x then x :: y :: ys else y :: insertByScore score x ys

/-- Stable descending sort by `score`, modelling
`results.sort(key=lambda x: x.get('score', 0), reverse=True)`
(`src/backend/main.py` line 431, `src/main.py` line 296). -/
def sortByScoreDesc {α : Type} (score : α → ℚ) : List α → List α
  | [] => []
  | x :: xs => insertByScore score x (sortByScoreDesc score xs)

namespace AppPy

/-- CACHE_DURATION = 300 seconds (`src/app.py` line 14). -/
def CACHE_DURATION : ℚ := 300

/-- Outcome of one `get_cached_or_fetch` call: the returned value (`none`
models the re-raised exception, the spec's `FetchError`), the cache dict
after the call, and whether `fetch_function` was invoked. -/
structure CacheResult (V : Type) where
  result : Option V
  cache : String → Option (V × ℚ)
  fetchInvoked : Bool

/-- get_cached_or_fetch (`src/app.py` lines 16-36).  `cache` is the shared
dict mapping a key to `(data, timestamp)`; `now` is `time.time()` sampled
once at entry; `fetchResult` is the outcome of `fetch_function()` (`none`
models an exception).  The `time.sleep(random.uniform(0.5, 1.5))` delay
before fetching does not touch the state and is not modelled.  On success
the entry is stored with the entry-time timestamp `now`, exactly as in the
source (`cache[key] = (data, current_time)`). -/
def get_cached_or_fetch {V : Type} (cache : String → Option (V × ℚ)) (key : String)
    (now : ℚ) (fetchResult : Option V) : CacheResult V :=
  let freshHit : Option V :=
    match cache key with
    | some (data, timestamp) =>
      if now - timestamp < CACHE_DURATION then some data else none
    | none => none
  match freshHit with
  | some data => ⟨some data, cache, false⟩
  | none =>
    match fetchResult with
    | some data => ⟨some data, fun k => if k = key then some (data, now) else cache k, true⟩
    | none =>
      match cache key with
      | some (data, _) => ⟨some data, cache, true⟩
      | none => ⟨none, cache, true⟩

end AppPy

namespace BackendMain

/-- calculate_stock_score (`src/backend/main.py` lines 225-266): additive
score from base 0, no clamping.  Every indicator is read with
`indicators.get(key, default)`: RSI defaults to 50, the others to 0.
`latest` models `latest.to_dict()`, whose `Close` and `Volume` entries are
always present. -/
def calculate_stock_score (indicators : Indicators) (latest : Bar) : ℚ :=
  let score : ℚ := 0
  let rsi := indicators.RSI.getD 50
  let score := if 40 ≤ rsi ∧ rsi ≤ 60 then score + 15
    else if rsi < 30 then score + 20
    else if 30 ≤ rsi ∧ rsi ≤ 40 then score + 10
    else score
  let score := if indicators.MACD_Signal.getD 0 < indicators.MACD.getD 0 then score + 15
    else score
  let price := latest.close
  let sma_20 := indicators.SMA_20.getD 0
  let score := if sma_20 < price ∧ 0 < sma_20 then score + 10 else score
  let adx := indicators.ADX.getD 0
  let score := if 25 < adx then score + 10 else if 20 < adx then score + 5 else score
  let vol_sma := indicators.Volume_SMA.getD 0
  let score := if vol_sma * 1.2 < latest.volume ∧ 0 < vol_sma then score + 10 else score
  score

/-- The criteria checks of `run_screener` (`src/backend/main.py` lines
380-407).  The source sets a `passes_screen` flag to `False` on each failed
check; the checks are independent, so the flag equals the conjunction of
the individual passes.  A symbol passes `rsi_min` when
`not (indicators.get('RSI', 50) < rsi_min)`, and so on. -/
def passes_screen (criteria : Criteria) (indicators : Indicators) (latest : Bar) : Bool :=
  let rsi := indicators.RSI.getD 50
  let pass_rsi_min := match criteria.rsi_min with
    | some m => !decide (rsi < m)
    | none => true
  let pass_rsi_max := match criteria.rsi_max with
    | some m => !decide (m < rsi)
    | none => true
  let pass_sma := if criteria.price_above_sma20 then
      !decide (latest.close ≤ indicators.SMA_20.getD 0)
    else true
  let pass_volume := match criteria.min_volume with
    | some mv => !decide (latest.volume < mv)
    | none => true
  let pass_macd := if criteria.macd_bullish then
      decide (indicators.MACD_Signal.getD 0 < indicators.MACD.getD 0)
    else true
  pass_rsi_min && pass_rsi_max && pass_sma && pass_volume && pass_macd

/-- One entry of the `results` list (`src/backend/main.py` lines 412-424).
The display rounding `round(x, n)` applied to the numeric fields is
omitted: it does not affect which symbols are screened, the counts, or the
sort key (scores are sums drawn from 5, 10, 15, 20, so `round(score, 1)`
is the identity on them). -/
structure ScreenResult where
  symbol : String
  price : ℚ
  change : ℚ
  change_percent : ℚ
  volume : ℚ
  rsi : ℚ
  macd : ℚ
  sma_20 : ℚ
  adx : ℚ
  score : ℚ
  deriving Inhabited, DecidableEq

/-- The body of the per-symbol loop of `run_screener` (`src/backend/main.py`
lines 364-428), returning `none` when the symbol is skipped.  `getData`
stands for `get_indian_stock_data` (which catches its own exceptions and
returns an empty DataFrame on failure, modelled by `[]`); `calcInd` stands
for `calculate_technical_indicators`, a wrapper around the third-party
`ta` library kept as a parameter. -/
def screen_symbol (calcInd : List Bar → Indicators) (getData : String → List Bar)
    (criteria : Criteria) (symbol : String) : Option ScreenResult :=
  let data := getData symbol
  if data.length < 20 then none
  else
    let indicators := calcInd data
    let latest := data.getLastD default
    let previous := if 1 < data.length then (data.drop (data.length - 2)).headD default
      else latest
    let price_change := latest.close - previous.close
    let change_percent := if previous.close ≠ 0 then price_change / previous.close * 100 else 0
    if passes_screen criteria indicators latest then
      some { symbol := symbol, price := latest.close, change := price_change,
             change_percent := change_percent, volume := latest.volume,
             rsi := indicators.RSI.getD 50, macd := indicators.MACD.getD 0,
             sma_20 := indicators.SMA_20.getD 0, adx := indicators.ADX.getD 0,
             score := calculate_stock_score indicators latest }
    else none

/-- The response dict of `run_screener` (`src/backend/main.py` lines
435-443), restricted to its numeric report fields. -/
structure ScanReport where
  results : List ScreenResult
  total_scanned : ℕ
  total_available : ℕ
  «matches» : ℕ

/-- run_screener (`src/backend/main.py` lines 351-443).  The universe is
sliced to `min limit 50` symbols; `processed_count` increments once per
loop iteration (the fetch cannot raise, it returns an empty DataFrame on
failure), so it equals the length of the processed slice.  Results are
sorted by score descending with Python's stable sort. -/
def run_screener (calcInd : List Bar → Indicators) (getData : String → List Bar)
    (univ : List String) (criteria : Criteria) (limit : ℕ) : ScanReport :=
  let stocks_to_process := univ.take (min limit 50)
  let results := stocks_to_process.filterMap (screen_symbol calcInd getData criteria)
  let sorted := sortByScoreDesc (fun r => r.score) results
  { results := sorted, total_scanned := stocks_to_process.length,
    total_available := univ.length, «matches» := sorted.length }

end BackendMain

namespace MainPy

/-- calculate_score (`src/main.py` lines 309-329): the older weight table.
RSI defaults to 50, MACD fields and ADX to 0. -/
def calculate_score (indicators : Indicators) : ℚ :=
  let score : ℚ := 0
  let rsi := indicators.RSI.getD 50
  let score := if 30 ≤ rsi ∧ rsi ≤ 70 then score + 10
    else if rsi < 30 then score + 5
    else score
  let score := if indicators.MACD_Signal.getD 0 < indicators.MACD.getD 0 then score + 15
    else score
  let adx := indicators.ADX.getD 0
  let score := if 25 < adx then score + 10 else score
  score

/-- The criteria checks of `run_screener` (`src/main.py` lines 256-277).
Unlike the `src/backend/main.py` copy, the RSI defaults differ per bound:
`indicators.get('RSI', 0)` for `rsi_min` and `indicators.get('RSI', 100)`
for `rsi_max`. -/
def passes_screen (criteria : Criteria) (indicators : Indicators) (latest : Bar) : Bool :=
  let pass_rsi_min := match criteria.rsi_min with
    | some m => !decide (indicators.RSI.getD 0 < m)
    | none => true
  let pass_rsi_max := match criteria.rsi_max with
    | some m => !decide (m < indicators.RSI.getD 100)
    | none => true
  let pass_sma := if criteria.price_above_sma20 then
      !decide (latest.close ≤ indicators.SMA_20.getD 0)
    else true
  let pass_volume := match criteria.min_volume with
    | some mv => !decide (latest.volume < mv)
    | none => true
  let pass_macd := if criteria.macd_bullish then
      decide (indicators.MACD_Signal.getD 0 < indicators.MACD.getD 0)
    else true
  pass_rsi_min && pass_rsi_max && pass_sma && pass_volume && pass_macd

/-- One entry of the `results` list (`src/main.py` lines 280-289).  The
`rsi`, `macd` and `sma_20` fields use `indicators.get(key)` with no
default, so they may be absent. -/
structure ScreenResult where
  symbol : String
  price : ℚ
  change_percent : ℚ
  volume : ℚ
  rsi : Option ℚ
  macd : Option ℚ
  sma_20 : Option ℚ
  score : ℚ
  deriving Inhabited, DecidableEq

/-- The body of the per-symbol loop of `run_screener` (`src/main.py` lines
246-293); only `data.empty` causes a skip (there is no minimum-length
check in this copy). -/
def screen_symbol (calcInd : List Bar → Indicators) (getData : String → List Bar)
    (criteria : Criteria) (symbol : String) : Option ScreenResult :=
  let data := getData symbol
  if data.length = 0 then none
  else
    let indicators := calcInd data
    let latest := data.getLastD default
    if passes_screen criteria indicators latest then
      let prevClose := ((data.drop (data.length - 2)).headD default).close
      some { symbol := symbol, price := latest.close,
             change_percent := if 1 < data.length then
                 (latest.close - prevClose) / prevClose * 100
               else 0,
             volume := latest.volume,
             rsi := indicators.RSI, macd := indicators.MACD,
             sma_20 := indicators.SMA_20,
             score := calculate_score indicators }
    else none

/-- The response dict of `run_screener` (`src/main.py` lines 298-304),
restricted to its numeric report fields. -/
structure ScanReport where
  results : List ScreenResult
  total_scanned : ℕ
  «matches» : ℕ

/-- run_screener (`src/main.py` lines 238-307).  The loop runs over
`NSE_STOCKS[:request.limit]`, but the report's `total_scanned` is
`len(NSE_STOCKS)` — the whole universe, not the processed slice. -/
def run_screener (calcInd : List Bar → Indicators) (getData : String → List Bar)
    (univ : List String) (criteria : Criteria) (limit : ℕ) : ScanReport :=
  let results := (univ.take limit).filterMap (screen_symbol calcInd getData criteria)
  let sorted := sortByScoreDesc (fun r => r.score) results
  { results := sorted, total_scanned := univ.length, «matches» := sorted.length }

end MainPy

namespace BackendApi

/-- Successive differences `hist['Close'].diff()` (`src/backend_api.py`
line 232) without the leading NaN entry. -/
def delta_series (closes : List ℚ) : List ℚ :=
  (closes.tail.zip closes).map fun p => p.1 - p.2

/-- The last `n` entries of a list: the window that yields the final value
of a width-`n` pandas rolling aggregate. -/
def lastWindow (n : ℕ) (xs : List ℚ) : List ℚ := xs.drop (xs.length - n)

/-- Average gain over the RSI window, the last value of
`(delta.where(delta > 0, 0)).rolling(window=period).mean()`
(`src/backend_api.py` line 233). -/
def avg_gain (period : ℕ) (closes : List ℚ) : ℚ :=
  ((lastWindow period (delta_series closes)).map fun d => max d 0).sum / (period : ℚ)

/-- Average loss over the RSI window, the last value of
`(-delta.where(delta < 0, 0)).rolling(window=period).mean()`
(`src/backend_api.py` line 234). -/
def avg_loss (period : ℕ) (closes : List ℚ) : ℚ :=
  ((lastWindow period (delta_series closes)).map fun d => max (-d) 0).sum / (period : ℚ)

/-- The RSI of `calculate_technical_indicators` (`src/backend_api.py`
lines 235-236): `rs = gain / loss`, `rsi = 100 - (100 / (1 + rs))`.
Division is `ℚ`-division; the claim of interest assumes
`0 < avg_loss`, where it agrees with the float computation. -/
def rsi_value (period : ℕ) (closes : List ℚ) : ℚ :=
  let rs := avg_gain period closes / avg_loss period closes
  100 - 100 / (1 + rs)

/-- The subset of the `stock_data` dict read by `generate_ai_score`. -/
structure StockQuote where
  change_percent : Option ℚ := none
  volume : Option ℚ := none
  pe_ratio : Option ℚ := none
  deriving Inhabited, DecidableEq

/-- The subset of the `technical_data` dict read by `generate_ai_score`. -/
structure TechData where
  rsi : Option ℚ := none
  macd : Option ℚ := none
  deriving Inhabited, DecidableEq

/-- generate_ai_score (`src/backend_api.py` lines 250-283): base score 50,
additive adjustments, returned as `min(95, max(5, score))`. -/
def generate_ai_score (stock_data : StockQuote) (technical_data : TechData) : ℚ :=
  let score : ℚ := 50
  let rsi := technical_data.rsi.getD 50
  let score := if 30 ≤ rsi ∧ rsi ≤ 70 then score + 15
    else if rsi < 30 then score + 10
    else if 70 < rsi then score - 10
    else score
  let change_percent := stock_data.change_percent.getD 0
  let score := if 0 < change_percent ∧ change_percent ≤ 5 then score + 15
    else if 5 < change_percent then score + 10
    else if change_percent < -5 then score - 15
    else score
  let volume := stock_data.volume.getD 0
  let avg_volume := volume * 0.8
  let score := if avg_volume * 1.5 < volume then score + 10 else score
  let pe_ratio := stock_data.pe_ratio.getD 0
  let score := if 0 < pe_ratio ∧ pe_ratio < 25 then score + 5 else score
  min 95 (max 5 score)

end BackendApi

/-- An indicator snapshot with every field unknown: the dict `{}` returned
when fewer than 20 bars are available, or when every value was NaN. -/
def indAllNone : Indicators := {}

/-- A zero bar, used as concrete latest-bar input. -/
def barZero : Bar := ⟨0, 0, 0, 0, 0, 0⟩

/-- Twenty identical bars: a series long enough for the screener's
minimum-length check. -/
def constBars : List Bar := List.replicate 20 barZero

/-- An empty criteria dict: no constraints. -/
def noCriteria : Criteria := {}

/-- Criteria with an RSI band, the spec scenario `{rsi_min: 40, rsi_max: 60}`. -/
def rsiBandCriteria : Criteria := { rsi_min := some 40, rsi_max := some 60 }

/-- Criteria with only a positive `rsi_min`. -/
def rsiMinOnly : Criteria := { rsi_min := some 40 }

/-- A concrete cache holding one entry inserted at time 0. -/
def cacheW : String → Option (ℚ × ℚ) :=
  fun k => if k = "RELIANCE.NS" then some (2850, 0) else none

/-- A second concrete cache holding one entry inserted at time 0. -/
def cacheStaleW : String → Option (ℚ × ℚ) :=
  fun k => if k = "TCS.NS" then some (4100, 0) else none

/-- A 15-close series alternating 10 and 8: its 14 deltas alternate
between -2 and +2, so the average loss over the RSI window is positive. -/
def closesW : List ℚ := [10, 8, 10, 8, 10, 8, 10, 8, 10, 8, 10, 8, 10, 8, 10]

/-- Helper: inserting into a list is a permutation of consing. -/
theorem insertByScore_perm {α : Type} (score : α → ℚ) (x : α) (l : List α) :
    List.Perm (insertByScore score x l) (x :: l) := by
  induction l with
  | nil => exact List.Perm.refl _
  | cons y ys ih =>
    simp only [insertByScore]
    split_ifs
    · exact List.Perm.refl _
    · exact (ih.cons y).trans (List.Perm.swap x y ys)

/-- Helper: the stable sort permutes its input. -/
theorem sortByScoreDesc_perm {α : Type} (score : α → ℚ) (l : List α) :
    List.Perm (sortByScoreDesc score l) l := by
  induction l with
  | nil => exact List.Perm.refl _
  | cons x xs ih => exact (insertByScore_perm score x _).trans (ih.cons x)

/-- Helper: insertion preserves descending sortedness by `score`. -/
theorem insertByScore_sorted {α : Type} (score : α → ℚ) (x : α) {l : List α}
    (h : l.Sorted fun a b => score b ≤ score a) :
    (insertByScore score x l).Sorted fun a b => score b ≤ score a := by
  induction l with
  | nil => simp [insertByScore]
  | cons y ys ih =>
    rw [List.sorted_cons] at h
    obtain ⟨hy, hys⟩ := h
    simp only [insertByScore]
    split_ifs with hc
    · rw [List.sorted_cons]
      refine ⟨?_, ?_⟩
      · intro b hb
        rcases List.mem_cons.mp hb with rfl | hb'
        · exact hc
        · exact (hy b hb').trans hc
      · rw [List.sorted_cons]
        exact ⟨hy, hys⟩
    · rw [List.sorted_cons]
      refine ⟨?_, ih hys⟩
      intro b hb
      rcases List.mem_cons.mp ((insertByScore_perm score x ys).mem_iff.mp hb) with rfl | hb'
      · exact (not_le.mp hc).le
      · exact hy b hb'

/-- Helper: the stable sort produces a list sorted by `score` descending. -/
theorem sortByScoreDesc_sorted {α : Type} (score : α → ℚ) (l : List α) :
    (sortByScoreDesc score l).Sorted fun a b => score b ≤ score a := by
  induction l with
  | nil => simp [sortByScoreDesc]
  | cons x xs ih => exact insertByScore_sorted score x ih

/-- Helper: `min 95 (max 5 s)` lies in `[5, 95]`. -/
theorem clamp_bounds (s : ℚ) : 5 ≤ min 95 (max 5 s) ∧ min 95 (max 5 s) ≤ 95 :=
  ⟨le_min (by norm_num) (le_max_left _ _), min_le_left _ _⟩

/-- C1 counterexample: with every indicator unknown and a zero latest bar,
`calculate_stock_score` returns 15, while the same snapshot with RSI known
at the neutral value 70 (whose row awards no points) scores 0 — so the
unknown-RSI row contributed +15 points, not 0. -/
theorem unknown_rsi_adds_fifteen :
    BackendMain.calculate_stock_score indAllNone barZero = 15 ∧
    BackendMain.calculate_stock_score { indAllNone with RSI := some 70 } barZero = 0 := by
  constructor <;> norm_num [BackendMain.calculate_stock_score, indAllNone, barZero]

/-- C1 (amended): a snapshot whose RSI is absent is scored exactly as if
RSI were 50 — `indicators.get('RSI', 50)` — so the RSI row contributes the
points of RSI = 50 (+15, the 40-60 band bonus) rather than 0. -/
theorem score_missing_rsi_as_fifty (ind : Indicators) (latest : Bar)
    (h : ind.RSI = none) :
    BackendMain.calculate_stock_score ind latest =
      BackendMain.calculate_stock_score { ind with RSI := some 50 } latest := by
  obtain ⟨r, f2, f3, f4, f5, f6, f7, f8, f9, f10, f11, f12, f13⟩ := ind
  have h' : r = none := h
  subst h'
  rfl

/-- Witness for `score_missing_rsi_as_fifty` at the all-unknown snapshot
and the zero bar. -/
theorem score_missing_rsi_as_fifty_witness :
    indAllNone.RSI = none ∧
      BackendMain.calculate_stock_score indAllNone barZero =
        BackendMain.calculate_stock_score { indAllNone with RSI := some 50 } barZero :=
  ⟨rfl, score_missing_rsi_as_fifty indAllNone barZero rfl⟩

/-- C2 counterexample: the snapshot with RSI = 70 and nothing else known
scores 0 on the zero bar, and 0 is below the claimed lower clamp 5 — so
`calculate_stock_score` is not clamped to `[5, 95]`. -/
theorem score_can_fall_below_five :
    BackendMain.calculate_stock_score { indAllNone with RSI := some 70 } barZero = 0 ∧
    ¬ (5 ≤ BackendMain.calculate_stock_score { indAllNone with RSI := some 70 } barZero) := by
  constructor <;> norm_num [BackendMain.calculate_stock_score, indAllNone, barZero]

set_option maxHeartbeats 1000000 in
/-- C2 (amended): `calculate_stock_score` is additive from base 0 with no
clamp and always lies in `[0, 65]`; the `[5, 95]` clamp exists only in the
AI pathway's `generate_ai_score`, which starts from base 50. -/
theorem score_bounds :
    (∀ (ind : Indicators) (latest : Bar),
      0 ≤ BackendMain.calculate_stock_score ind latest ∧
        BackendMain.calculate_stock_score ind latest ≤ 65) ∧
    ∀ (sq : BackendApi.StockQuote) (td : BackendApi.TechData),
      5 ≤ BackendApi.generate_ai_score sq td ∧
        BackendApi.generate_ai_score sq td ≤ 95 := by
  constructor
  · intro ind latest
    simp only [BackendMain.calculate_stock_score]
    constructor <;> split_ifs <;> norm_num
  · intro sq td
    exact clamp_bounds _

/-- C4: a cache entry of age strictly below CACHE_DURATION is returned
as-is with no fetch; once the age reaches CACHE_DURATION the fetch path
runs. -/
theorem cache_ttl_boundary {V : Type} (cache : String → Option (V × ℚ)) (key : String)
    (now : ℚ) (fetchResult : Option V) (v : V) (ts : ℚ)
    (hentry : cache key = some (v, ts)) :
    (now - ts < AppPy.CACHE_DURATION →
      (AppPy.get_cached_or_fetch cache key now fetchResult).result = some v ∧
      (AppPy.get_cached_or_fetch cache key now fetchResult).fetchInvoked = false) ∧
    (AppPy.CACHE_DURATION ≤ now - ts →
      (AppPy.get_cached_or_fetch cache key now fetchResult).fetchInvoked = true) := by
  constructor
  · intro hfresh
    simp [AppPy.get_cached_or_fetch, hentry, hfresh]
  · intro hexp
    have hnot : ¬ (now - ts < AppPy.CACHE_DURATION) := not_lt.mpr hexp
    cases fetchResult <;> simp [AppPy.get_cached_or_fetch, hentry, hnot]

/-- Witness for `cache_ttl_boundary`: entry inserted at t = 0 with ttl
300; at t = 299 the cached value is returned without fetching, at t = 301
a fetch occurs. -/
theorem cache_ttl_boundary_witness :
    ((AppPy.get_cached_or_fetch cacheW "RELIANCE.NS" 299 none).result = some 2850 ∧
      (AppPy.get_cached_or_fetch cacheW "RELIANCE.NS" 299 none).fetchInvoked = false) ∧
    (AppPy.get_cached_or_fetch cacheW "RELIANCE.NS" 301 none).fetchInvoked = true :=
  ⟨(cache_ttl_boundary cacheW "RELIANCE.NS" 299 none 2850 0 (by simp [cacheW])).1
      (by norm_num [AppPy.CACHE_DURATION]),
   (cache_ttl_boundary cacheW "RELIANCE.NS" 301 none 2850 0 (by simp [cacheW])).2
      (by norm_num [AppPy.CACHE_DURATION])⟩

/-- C5: when the fetch fails, any prior entry for the key — expired or not
— is returned instead of failing; the call fails (result `none`, the
spec's FetchError) exactly when the fetch fails and no prior entry
exists. -/
theorem cache_stale_fallback {V : Type} (cache : String → Option (V × ℚ))
    (key : String) (now : ℚ) :
    (∀ (v : V) (ts : ℚ), cache key = some (v, ts) →
      (AppPy.get_cached_or_fetch cache key now none).result = some v) ∧
    ∀ fetchResult : Option V,
      ((AppPy.get_cached_or_fetch cache key now fetchResult).result = none ↔
        fetchResult = none ∧ cache key = none) := by
  constructor
  · intro v ts hentry
    by_cases hfresh : now - ts < AppPy.CACHE_DURATION <;>
      simp [AppPy.get_cached_or_fetch, hentry, hfresh]
  · intro fetchResult
    cases hc : cache key with
    | none => cases fetchResult <;> simp [AppPy.get_cached_or_fetch, hc]
    | some p =>
      obtain ⟨v, ts⟩ := p
      by_cases hfresh : now - ts < AppPy.CACHE_DURATION <;>
        cases fetchResult <;> simp [AppPy.get_cached_or_fetch, hc, hfresh]

/-- Witness for `cache_stale_fallback`: an entry of age 1000 (long
expired) is still returned when the fetch fails. -/
theorem cache_stale_fallback_witness :
    (AppPy.get_cached_or_fetch cacheStaleW "TCS.NS" 1000 (none : Option ℚ)).result =
      some 4100 :=
  (cache_stale_fallback cacheStaleW "TCS.NS" 1000).1 4100 0 (by simp [cacheStaleW])

/-- C6 counterexample: universe ["TCS.NS", "INFY.NS"] with identical data
gives both symbols the same score 15, and the output keeps them in
universe order — but "INFY.NS" < "TCS.NS", so the tie is not broken by
symbol ascending and the order depends on the universe's input order. -/
theorem tie_not_broken_by_symbol :
    ((BackendMain.run_screener (fun _ => indAllNone) (fun _ => constBars)
        ["TCS.NS", "INFY.NS"] noCriteria 30).results.map
      fun r => (r.symbol, r.score)) = [("TCS.NS", 15), ("INFY.NS", 15)] ∧
    ¬ ("TCS.NS" < "INFY.NS") := by
  constructor
  · norm_num [BackendMain.run_screener, BackendMain.screen_symbol, BackendMain.passes_screen,
      BackendMain.calculate_stock_score, sortByScoreDesc, insertByScore, constBars, indAllNone,
      noCriteria, barZero, List.filterMap, List.replicate]
  · simp
    decide

/-- C6 (amended): `run_screener`'s results are sorted by score descending
and are a permutation of the screened symbols in universe order; ties
between equal scores keep the stable processing (universe) order, not
symbol-ascending order. -/
theorem run_screener_sorted_perm (calcInd : List Bar → Indicators)
    (getData : String → List Bar) (univ : List String) (criteria : Criteria)
    (limit : ℕ) :
    ((BackendMain.run_screener calcInd getData univ criteria limit).results.Sorted
      fun a b => b.score ≤ a.score) ∧
    List.Perm (BackendMain.run_screener calcInd getData univ criteria limit).results
      ((univ.take (min limit 50)).filterMap
        (BackendMain.screen_symbol calcInd getData criteria)) :=
  ⟨sortByScoreDesc_sorted _ _, sortByScoreDesc_perm _ _⟩

/-- C7 counterexample: `src/main.py`'s `run_screener` with a 2-symbol
universe and limit 1 attempts only 1 symbol yet reports
`total_scanned = 2`, the full universe size. -/
theorem total_scanned_ignores_limit :
    (MainPy.run_screener (fun _ => indAllNone) (fun _ => ([] : List Bar))
        ["TCS.NS", "INFY.NS"] noCriteria 1).total_scanned = 2 ∧
    ((["TCS.NS", "INFY.NS"] : List String).take 1).length = 1 ∧
    (2 : ℕ) ≠ 1 := by
  refine ⟨rfl, rfl, by decide⟩

/-- C7 (amended): `src/backend/main.py`'s `run_screener` attempts exactly
the `min limit 50`-slice of the universe (so at most `limit` symbols),
with `total_scanned` the attempted count and `matches` the result count;
`src/main.py`'s copy instead reports `total_scanned = len(universe)`
regardless of the limit. -/
theorem scan_count_report (calcInd : List Bar → Indicators)
    (getData : String → List Bar) (univ : List String) (criteria : Criteria)
    (limit : ℕ) :
    (BackendMain.run_screener calcInd getData univ criteria limit).total_scanned =
        (univ.take (min limit 50)).length ∧
    (BackendMain.run_screener calcInd getData univ criteria limit).total_scanned ≤ limit ∧
    (BackendMain.run_screener calcInd getData univ criteria limit).«matches» =
        (BackendMain.run_screener calcInd getData univ criteria limit).results.length ∧
    (MainPy.run_screener calcInd getData univ criteria limit).total_scanned =
        univ.length := by
  refine ⟨rfl, ?_, rfl, rfl⟩
  show (univ.take (min limit 50)).length ≤ limit
  rw [List.length_take]
  exact le_trans (min_le_left _ _) (min_le_left _ _)

/-- C8 counterexample: a symbol whose snapshot lacks RSI, screened with
criteria {rsi_min: 40, rsi_max: 60}, appears in the results — the missing
RSI is read as 50, which satisfies both bounds. -/
theorem unknown_rsi_passes_band :
    ((BackendMain.run_screener (fun _ => indAllNone) (fun _ => constBars)
        ["WIPRO.NS"] rsiBandCriteria 30).results.map fun r => r.symbol) = ["WIPRO.NS"] ∧
    indAllNone.RSI = none := by
  constructor
  · norm_num [BackendMain.run_screener, BackendMain.screen_symbol, BackendMain.passes_screen,
      BackendMain.calculate_stock_score, sortByScoreDesc, insertByScore, constBars, indAllNone,
      rsiBandCriteria, barZero, List.filterMap, List.replicate]
  · rfl

/-- C8 (amended): with RSI unknown, `src/backend/main.py`'s screen behaves
exactly as if RSI were 50 (so bounds containing 50 pass and bounds
excluding 50 fail), while `src/main.py`'s screen reads RSI as 0 for the
`rsi_min` check and therefore fails the symbol whenever `rsi_min > 0`. -/
theorem rsi_filter_default_behavior (criteria : Criteria) (ind : Indicators)
    (latest : Bar) (h : ind.RSI = none) :
    BackendMain.passes_screen criteria ind latest =
      BackendMain.passes_screen criteria { ind with RSI := some 50 } latest ∧
    ∀ m : ℚ, criteria.rsi_min = some m → 0 < m →
      MainPy.passes_screen criteria ind latest = false := by
  refine ⟨?_, ?_⟩
  · obtain ⟨r, f2, f3, f4, f5, f6, f7, f8, f9, f10, f11, f12, f13⟩ := ind
    have h' : r = none := h
    subst h'
    rfl
  · intro m hm hpos
    simp [MainPy.passes_screen, h, hm, hpos]

/-- Witness for `rsi_filter_default_behavior`: with RSI unknown and
criteria {rsi_min: 40}, `src/main.py`'s screen rejects the symbol. -/
theorem rsi_filter_default_behavior_witness :
    MainPy.passes_screen rsiMinOnly indAllNone barZero = false :=
  (rsi_filter_default_behavior rsiMinOnly indAllNone barZero rfl).2 40 rfl (by norm_num)

/-- C9: whenever the average loss over the RSI window is strictly
positive, the RSI computed by `src/backend_api.py` lies in `[0, 100]`. -/
theorem rsi_in_range (period : ℕ) (closes : List ℚ)
    (h : 0 < BackendApi.avg_loss period closes) :
    0 ≤ BackendApi.rsi_value period closes ∧
      BackendApi.rsi_value period closes ≤ 100 := by
  have hg : 0 ≤ BackendApi.avg_gain period closes := by
    unfold BackendApi.avg_gain
    apply div_nonneg
    · apply List.sum_nonneg
      intro x hx
      simp only [List.mem_map] at hx
      obtain ⟨d, _, rfl⟩ := hx
      exact le_max_right d 0
    · exact Nat.cast_nonneg _
  have hrs : 0 ≤ BackendApi.avg_gain period closes / BackendApi.avg_loss period closes :=
    div_nonneg hg h.le
  have hpos : 0 < 1 + BackendApi.avg_gain period closes / BackendApi.avg_loss period closes := by
    linarith
  have hdiv_le : 100 / (1 + BackendApi.avg_gain period closes /
      BackendApi.avg_loss period closes) ≤ 100 := by
    rw [div_le_iff₀ hpos]
    nlinarith
  have hdiv_pos : 0 < 100 / (1 + BackendApi.avg_gain period closes /
      BackendApi.avg_loss period closes) := by positivity
  unfold BackendApi.rsi_value
  constructor
  · linarith
  · linarith

/-- Witness for `rsi_in_range` at the alternating 15-close series, whose
average loss over the window is 1. -/
theorem rsi_in_range_witness :
    0 < BackendApi.avg_loss 14 closesW ∧
      (0 ≤ BackendApi.rsi_value 14 closesW ∧ BackendApi.rsi_value 14 closesW ≤ 100) :=
  ⟨by norm_num [BackendApi.avg_loss, BackendApi.lastWindow, BackendApi.delta_series, closesW],
   rsi_in_range 14 closesW
     (by norm_num [BackendApi.avg_loss, BackendApi.lastWindow, BackendApi.delta_series, closesW])⟩

/-- C10: a call whose fetch fails leaves the cache dict exactly as it was
— no entry is inserted, replaced or re-timestamped for any key; the stale
value, when served, is returned without refreshing its timestamp. -/
theorem fetch_failure_preserves_cache {V : Type} (cache : String → Option (V × ℚ))
    (key : String) (now : ℚ) :
    (AppPy.get_cached_or_fetch cache key now none).cache = cache := by
  cases hc : cache key with
  | none => simp [AppPy.get_cached_or_fetch, hc]
  | some p =>
    obtain ⟨v, ts⟩ := p
    by_cases hfresh : now - ts < AppPy.CACHE_DURATION <;>
      simp [AppPy.get_cached_or_fetch, hc, hfresh]
